import Mathlib

/-!
Shallow embedding of `src/esd_data/dataset.py` (class `DSE`): the sample-assembly
pipeline for the IEEE GRSS 2021 ESD dataset.  Numeric array entries are modelled
as `Int` (the ground-truth values are integer class labels); a numpy array of
rank n is modelled as an n-fold nested list, so row-major `np.reshape` collapsing
the two leading axes becomes `List.flatten` of the outer level, and
`np.squeeze(axis=0)` becomes extraction of the single outer element.  Python
exceptions are modelled by an `Except PyError` result.
-/

/-- Python exceptions that the code under `src/esd_data/dataset.py` can raise:
`AttributeError` (calling `.group` on a failed `re.search`, i.e. on `None`),
`KeyError` (dict lookup misses), `IndexError` (list/array index out of range)
and `ValueError` (with its message). -/
inductive PyError : Type where
  | attributeError : PyError
  | keyError : String → PyError
  | indexError : PyError
  | valueError : String → PyError
deriving DecidableEq

instance {ε α : Type} [DecidableEq ε] [DecidableEq α] : DecidableEq (Except ε α) := fun x y =>
  match x, y with
  | .ok a, .ok b => if h : a = b then .isTrue (by rw [h]) else .isFalse (by simp [h])
  | .error a, .error b => if h : a = b then .isTrue (by rw [h]) else .isFalse (by simp [h])
  | .ok _, .error _ => .isFalse (by simp)
  | .error _, .ok _ => .isFalse (by simp)

/-- A 2-dimensional numeric array (height, width). -/
abbrev Arr2 : Type := List (List Int)

/-- A 3-dimensional numeric array (channel, height, width). -/
abbrev Arr3 : Type := List Arr2

/-- A 4-dimensional numeric array (time, band, height, width). -/
abbrev Arr4 : Type := List Arr3

/-- `a` is a rectangular 2-d array of shape (h, w). -/
def hasShape2 (a : Arr2) (h w : Nat) : Prop :=
  a.length = h ∧ ∀ r ∈ a, r.length = w

/-- `a` is a rectangular 3-d array of shape (c, h, w). -/
def hasShape3 (a : Arr3) (c h w : Nat) : Prop :=
  a.length = c ∧ ∀ m ∈ a, hasShape2 m h w

/-- `a` is a rectangular 4-d array of shape (t, b, h, w). -/
def hasShape4 (a : Arr4) (t b h w : Nat) : Prop :=
  a.length = t ∧ ∀ m ∈ a, hasShape3 m b h w

instance (a : Arr2) (h w : Nat) : Decidable (hasShape2 a h w) := by
  unfold hasShape2; infer_instance

instance (a : Arr3) (c h w : Nat) : Decidable (hasShape3 a c h w) := by
  unfold hasShape3; infer_instance

instance (a : Arr4) (t b h w : Nat) : Decidable (hasShape4 a t b h w) := by
  unfold hasShape4; infer_instance

/-- The numpy `.shape` of a (rectangular) 3-d array, read off the nesting. -/
def shape3 (a : Arr3) : List Nat :=
  [a.length, (a.headD []).length, ((a.headD []).headD []).length]

/-- List lookup by position, modelling Python `lst[i]` / numpy integer indexing
for non-negative indices (`none` models `IndexError`). -/
def nth? {α : Type} : List α → Nat → Option α
  | [], _ => none
  | x :: _, 0 => some x
  | _ :: xs, n + 1 => nth? xs n

/-- Python `int(...)` on a string of decimal digits. -/
def digitsToNat (l : List Char) : Nat :=
  l.foldl (fun a c => 10 * a + (c.toNat - 48)) 0

/-- Modelled from the spec: the metadata record (class `TileMetadata` of
`src/preprocessing/subtile_esd_hw02.py`, which is not part of this module's
sources) holds, per satellite-source name, an ordered list of band names
corresponding to the band axis of that source's array. -/
structure SatelliteMetadata : Type where
  bands : List String
deriving DecidableEq

/-- Modelled from the spec: the per-tile metadata record, a mapping from
satellite-source name to its band metadata.  Python dicts preserve insertion
order, so the mapping is an association list. -/
structure TileMetadata : Type where
  satellites : List (String × SatelliteMetadata)
deriving DecidableEq

/-- Modelled from the spec: a loaded subtile bundle (class `Subtile` of
`src/preprocessing/subtile_esd_hw02.py`): a mapping from satellite-source name
(including the reserved name "gt") to a (time, band, height, width) array,
plus the tile metadata. -/
structure Subtile : Type where
  satellite_stack : List (String × Arr4)
  tile_metadata : TileMetadata
deriving DecidableEq

/-- Python dict lookup `d[k]` on an insertion-ordered association list
(`none` models `KeyError`). -/
def alookup {β : Type} : List (String × β) → String → Option β
  | [], _ => none
  | p :: rest, k => if p.1 = k then some p.2 else alookup rest k

/-- The in-place mutation `sats[k].bands = bs` on a satellites mapping. -/
def setBands (sats : List (String × SatelliteMetadata)) (k : String) (bs : List String) :
    List (String × SatelliteMetadata) :=
  sats.map (fun p => if p.1 = k then (p.1, ⟨bs⟩) else p)

/-- The dataset object (`DSE.__init__`): the enumerated subtile file names
(`self.tiles`, in directory-listing order), the optional band-selection
configuration (`self.selected_bands`, an insertion-ordered dict), the optional
transform, and the external loader collaborator
(`Subtile().load`, out of scope per the spec) mapping a file name to its bundle. -/
structure DSE : Type where
  tiles : List String
  selected_bands : Option (List (String × List String))
  transform : Option (Arr3 × Arr3 → Arr3 × Arr3)
  load : String → Subtile

/-- `DSE.__aggregate_time`: `np.reshape(img, (s0*s1, s2, s3))` on a
(time, band, h, w) array.  A row-major reshape that collapses the two leading
axes of a nested list is exactly `List.flatten` of the outer level. -/
def aggregate_time (img : Arr4) : Arr3 :=
  img.flatten

/-- `DSE.__select_indices`:
`[index for index, value in enumerate(bands) if value in selected_bands]`. -/
def select_indices (bands : List String) (selected_bands : List String) : List Nat :=
  ((bands.enum.filter (fun p => decide (p.2 ∈ selected_bands))).map Prod.fst)

/-- Numpy integer-array indexing of a list by a list of positions, as in
`row[indices]`; an out-of-range position raises `IndexError`. -/
def takeIndices {α : Type} (row : List α) : List Nat → Except PyError (List α)
  | [] => .ok []
  | i :: is =>
    match nth? row i with
    | none => .error .indexError
    | some v =>
      match takeIndices row is with
      | .error e => .error e
      | .ok vs => .ok (v :: vs)

/-- Numpy fancy indexing `arr[:, indices, :, :]` on a 4-d array. -/
def sliceAxis1 : Arr4 → List Nat → Except PyError Arr4
  | [], _ => .ok []
  | t :: ts, idxs =>
    match takeIndices t idxs with
    | .error e => .error e
    | .ok row =>
      match sliceAxis1 ts idxs with
      | .error e => .error e
      | .ok rest => .ok (row :: rest)

/-- `np.squeeze(y, axis=0)`: removes the leading axis when it has size one and
raises `ValueError` otherwise. -/
def squeeze : Arr4 → Except PyError Arr3
  | [m] => .ok m
  | _ => .error (.valueError "cannot select an axis to squeeze out which has size not equal to one")

/-- Elementwise map over a 3-d array, modelling numpy broadcast arithmetic such
as `y - 1`. -/
def map3 (f : Int → Int) (a : Arr3) : Arr3 :=
  a.map (fun m => m.map (fun r => r.map f))

/-- The `for key in self.selected_bands:` loop body of `DSE.__select_bands`,
threading the three mutable pieces of state: `selected_satellite_stack`
(accumulated dict), `new_metadata.satellites` (accumulated dict) and the
satellites mapping of `subtile.tile_metadata` (mutated in place).  Per
iteration, in source order:
`satellite_bands = subtile.tile_metadata.satellites[key].bands` (current state),
`indices = __select_indices(satellite_bands, selected_bands[key])`,
`new_metadata.satellites[key] = subtile.tile_metadata.satellites[key]` followed by
`subtile.tile_metadata.satellites[key].bands = selected_bands[key]` (the stored
entry aliases the original object, so after the mutation both hold the
requested band list), and finally
`selected_satellite_stack[key] = subtile.satellite_stack[key][:, indices, :, :]`. -/
def selectBandsLoop (stack0 : List (String × Arr4)) :
    List (String × List String) → List (String × Arr4) →
    List (String × SatelliteMetadata) → List (String × SatelliteMetadata) →
    Except PyError
      (List (String × Arr4) × List (String × SatelliteMetadata) × List (String × SatelliteMetadata))
  | [], stackAcc, newSats, origSats => .ok (stackAcc, newSats, origSats)
  | (key, sel) :: rest, stackAcc, newSats, origSats =>
    match alookup origSats key with
    | none => .error (.keyError key)
    | some satMeta =>
      let indices := select_indices satMeta.bands sel
      let newSats2 := newSats ++ [(key, ⟨sel⟩)]
      let origSats2 := setBands origSats key sel
      match alookup stack0 key with
      | none => .error (.keyError key)
      | some arr =>
        match sliceAxis1 arr indices with
        | .error e => .error e
        | .ok sliced => selectBandsLoop stack0 rest (stackAcc ++ [(key, sliced)]) newSats2 origSats2

/-- `DSE.__select_bands`.  Returns the selected satellite stack, the
`new_metadata` that the method returns, and — because the method mutates
`subtile.tile_metadata` through the aliased entries — the state of the loaded
bundle's metadata after the call.  When no configuration is supplied the
bundle passes through unmodified (`new_metadata` is a deep copy, equal by
value to the original). -/
def select_bands (selected_bands : Option (List (String × List String))) (subtile : Subtile) :
    Except PyError (List (String × Arr4) × TileMetadata × TileMetadata) :=
  match selected_bands with
  | none => .ok (subtile.satellite_stack, subtile.tile_metadata, subtile.tile_metadata)
  | some cfg =>
    match selectBandsLoop subtile.satellite_stack cfg [] [] subtile.tile_metadata.satellites with
    | .error e => .error e
    | .ok (stack, newSats, postSats) => .ok (stack, ⟨newSats⟩, ⟨postSats⟩)

/-- The satellite-stacking loop of `DSE.__getitem__`:
`X = list()`, then for every `(satellite_type, stack)` with
`satellite_type != "gt"`,
`X = __aggregate_time(stack) if len(X) == 0 else np.concatenate((X, __aggregate_time(stack)))`. -/
def stackNonGt (stack : List (String × Arr4)) : Arr3 :=
  stack.foldl
    (fun X p =>
      if p.1 ≠ "gt" then
        (if X.length = 0 then aggregate_time p.2 else X ++ aggregate_time p.2)
      else X)
    []

/-- `DSE.__getitem__`: loads the subtile at `idx`, selects bands, extracts the
raw ground truth `subtile.satellite_stack["gt"]`, aggregates time and stacks
the non-"gt" sources, squeezes the ground truth's time axis, optionally
applies the transform, and returns `(X, y - 1, metadata)`. -/
def getitem (ds : DSE) (idx : Nat) : Except PyError (Arr3 × Arr3 × TileMetadata) :=
  match nth? ds.tiles idx with
  | none => .error .indexError
  | some name =>
    match select_bands ds.selected_bands (ds.load name) with
    | .error e => .error e
    | .ok (satellite_stack, metadata, _) =>
      match alookup (ds.load name).satellite_stack "gt" with
      | none => .error (.keyError "gt")
      | some gt0 =>
        let X := stackNonGt satellite_stack
        match squeeze gt0 with
        | .error e => .error e
        | .ok y0 =>
          match ds.transform with
          | none => .ok (X, map3 (fun v => v - 1) y0, metadata)
          | some f =>
            let p := f (X, y0)
            .ok (p.1, map3 (fun v => v - 1) p.2, metadata)

/-- The tail `npz` of the pattern `Tile(\d+)_(\d+)_(\d+).npz` after the third
capture group: one arbitrary non-newline character (the unescaped `.`)
followed by the literal `npz`; anything may follow, since `re.search` does not
anchor the match.  Returns the candidate third group on success. -/
def matchTail (g3 : List Char) (rest : List Char) : Option (List Char) :=
  match rest with
  | c :: 'n' :: 'p' :: 'z' :: _ => if c = '\n' then none else some g3
  | _ => none

/-- Greedy backtracking for the third `(\d+)` of the pattern: try the longest
prefix of the maximal digit run first, then shorter ones, never empty. -/
def backtrack3 (digits rest : List Char) : Nat → Option (List Char)
  | 0 => none
  | l + 1 =>
    match matchTail (digits.take (l + 1)) (digits.drop (l + 1) ++ rest) with
    | some g => some g
    | none => backtrack3 digits rest l

/-- One anchored attempt of `re.compile('Tile(\d+)_(\d+)_(\d+).npz')` at the
head of `cs`: the literal `Tile`, a maximal nonempty digit run (greedy `\d+`
followed by the non-digit `_` needs no backtracking), `_`, a second digit run,
`_`, and a third digit run with genuine backtracking against `.npz`.
Digits follow ASCII `\d` (the file names at issue are ASCII).  On success,
returns the three captured groups converted by `int(...)`. -/
def matchAt (cs : List Char) : Option (Nat × Nat × Nat) :=
  match cs with
  | 'T' :: 'i' :: 'l' :: 'e' :: rest =>
    match rest.span Char.isDigit with
    | (d1, r1) =>
      match d1, r1 with
      | [], _ => none
      | _ :: _, '_' :: r2 =>
        match r2.span Char.isDigit with
        | (d2, r3) =>
          match d2, r3 with
          | [], _ => none
          | _ :: _, '_' :: r4 =>
            match r4.span Char.isDigit with
            | (d3, r5) =>
              match d3 with
              | [] => none
              | _ :: _ =>
                match backtrack3 d3 r5 d3.length with
                | none => none
                | some g3 => some (digitsToNat d1, digitsToNat d2, digitsToNat g3)
          | _, _ => none
      | _, _ => none
  | _ => none

/-- `re.search` semantics: try an anchored match at every start position, left
to right. -/
def searchAux : List Char → Option (Nat × Nat × Nat)
  | [] => none
  | c :: rest =>
    match matchAt (c :: rest) with
    | some g => some g
    | none => searchAux rest

/-- `pattern.search(subtile.name)` followed by
`int(result.group(1)), int(result.group(2)), int(result.group(3))`;
`none` is the failed search, on which `.group` raises `AttributeError`. -/
def searchTile (s : String) : Option (Nat × Nat × Nat) :=
  searchAux s.data

/-- The `for k, subtile in enumerate(self.tiles):` loop of `DSE.find_subtile`,
carrying the running index `k`; falls through to the
`raise ValueError(f'Could not find ...')` when the list is exhausted. -/
def findLoop (ds : DSE) (tile_id i j : Nat) : Nat → List String → Except PyError (Arr3 × Arr3 × TileMetadata)
  | _, [] =>
    .error (.valueError ("Could not find Tile" ++ toString tile_id ++ "_" ++ toString i ++
      "_" ++ toString j ++ ".npz in the dataset"))
  | k, name :: rest =>
    match searchTile name with
    | none => .error .attributeError
    | some (idv, x, y) =>
      if tile_id = idv ∧ i = x ∧ j = y then getitem ds k
      else findLoop ds tile_id i j (k + 1) rest

/-- `DSE.find_subtile(tile_id, i, j)`. -/
def find_subtile (ds : DSE) (tile_id i j : Nat) : Except PyError (Arr3 × Arr3 × TileMetadata) :=
  findLoop ds tile_id i j 0 ds.tiles

/-! ### Helper lemmas about the list model -/

lemma nth?_append_left {α : Type} : ∀ (l₁ l₂ : List α) (n : Nat), n < l₁.length →
    nth? (l₁ ++ l₂) n = nth? l₁ n
  | [], _, n, h => absurd h (by simp)
  | _ :: _, _, 0, _ => rfl
  | _ :: xs, l₂, n + 1, h => nth?_append_left xs l₂ n (Nat.lt_of_succ_lt_succ h)

lemma nth?_append_right {α : Type} : ∀ (l₁ l₂ : List α) (n : Nat), l₁.length ≤ n →
    nth? (l₁ ++ l₂) n = nth? l₂ (n - l₁.length)
  | [], _, n, _ => rfl
  | x :: xs, _, 0, h => absurd h (by simp)
  | x :: xs, l₂, n + 1, h => by
    have := nth?_append_right xs l₂ n (Nat.le_of_succ_le_succ h)
    simpa [nth?, Nat.succ_sub_succ] using this

lemma nth?_pre_cons {α : Type} (pre : List α) (r : α) (rs : List α) :
    nth? (pre ++ r :: rs) pre.length = some r := by
  rw [nth?_append_right pre (r :: rs) pre.length (Nat.le_refl _)]
  simp [nth?]

lemma sum_const_lengths {α : Type} (b : Nat) :
    ∀ l : List (List α), (∀ r ∈ l, r.length = b) → (l.map List.length).sum = l.length * b
  | [], _ => by simp
  | r :: rs, h => by
    have hr : r.length = b := h r (List.mem_cons_self r rs)
    have := sum_const_lengths b rs (fun x hx => h x (List.mem_cons_of_mem r hx))
    simp [this, hr, Nat.succ_mul]
    omega

lemma flatten_nth? {α : Type} (b : Nat) :
    ∀ (L : List (List α)) (t i : Nat), (∀ r ∈ L, r.length = b) → i < b → t < L.length →
    nth? L.flatten (t * b + i) = (nth? L t).bind (fun r => nth? r i)
  | [], t, _, _, _, ht => absurd ht (by simp)
  | r :: rs, 0, i, hb, hi, _ => by
    have hr : r.length = b := hb r (List.mem_cons_self r rs)
    have : nth? (r ++ rs.flatten) i = nth? r i :=
      nth?_append_left r rs.flatten i (by omega)
    simpa [nth?] using this
  | r :: rs, t + 1, i, hb, hi, ht => by
    have hr : r.length = b := hb r (List.mem_cons_self r rs)
    have hle : r.length ≤ (t + 1) * b + i := by
      rw [hr]; calc b ≤ (t + 1) * b := by nlinarith
        _ ≤ (t + 1) * b + i := Nat.le_add_right _ _
    have h1 : nth? ((r :: rs).flatten) ((t + 1) * b + i) = nth? rs.flatten ((t + 1) * b + i - r.length) :=
      nth?_append_right r rs.flatten _ hle
    have h2 : (t + 1) * b + i - r.length = t * b + i := by rw [hr]; ring_nf; omega
    have h3 := flatten_nth? b rs t i (fun x hx => hb x (List.mem_cons_of_mem r hx)) hi
      (by simpa using Nat.lt_of_succ_lt_succ ht)
    rw [h1, h2, h3]
    rfl

/-! ### Characterisation of band selection -/

lemma takeIndices_enumFrom {α : Type} (sel : List String) :
    ∀ (bands : List String) (pre row : List α), row.length = bands.length →
    takeIndices (pre ++ row)
        (((List.enumFrom pre.length bands).filter (fun p => decide (p.2 ∈ sel))).map Prod.fst)
      = .ok (((row.zip bands).filter (fun p => decide (p.2 ∈ sel))).map Prod.fst)
  | [], pre, row, h => by
    have : row = [] := List.length_eq_zero.mp h
    subst this
    rfl
  | b :: bs, pre, row, h => by
    match row, h with
    | r :: rs, h =>
      have hrs : rs.length = bs.length := by simpa using h
      have hmid : nth? (pre ++ r :: rs) pre.length = some r := nth?_pre_cons pre r rs
      have hshift : pre.length + 1 = (pre ++ [r]).length := by simp
      have hassoc : pre ++ r :: rs = (pre ++ [r]) ++ rs := by simp
      have ih := takeIndices_enumFrom sel bs (pre ++ [r]) rs hrs
      rw [← hshift, ← hassoc] at ih
      by_cases hbsel : b ∈ sel
      · have hfc : (List.enumFrom pre.length (b :: bs)).filter (fun p => decide (p.2 ∈ sel))
            = (pre.length, b) :: (List.enumFrom (pre.length + 1) bs).filter (fun p => decide (p.2 ∈ sel)) := by
          show ((pre.length, b) :: List.enumFrom (pre.length + 1) bs).filter (fun p => decide (p.2 ∈ sel)) = _
          simp [List.filter_cons, hbsel]
        have hzc : ((r :: rs).zip (b :: bs)).filter (fun p => decide (p.2 ∈ sel))
            = (r, b) :: ((rs.zip bs).filter (fun p => decide (p.2 ∈ sel))) := by
          show ((r, b) :: rs.zip bs).filter (fun p => decide (p.2 ∈ sel)) = _
          simp [List.filter_cons, hbsel]
        rw [hfc, hzc]
        simp only [List.map_cons]
        simp only [takeIndices, hmid, ih]
      · have hfc : (List.enumFrom pre.length (b :: bs)).filter (fun p => decide (p.2 ∈ sel))
            = (List.enumFrom (pre.length + 1) bs).filter (fun p => decide (p.2 ∈ sel)) := by
          show ((pre.length, b) :: List.enumFrom (pre.length + 1) bs).filter (fun p => decide (p.2 ∈ sel)) = _
          simp [List.filter_cons, hbsel]
        have hzc : ((r :: rs).zip (b :: bs)).filter (fun p => decide (p.2 ∈ sel))
            = (rs.zip bs).filter (fun p => decide (p.2 ∈ sel)) := by
          show ((r, b) :: rs.zip bs).filter (fun p => decide (p.2 ∈ sel)) = _
          simp [List.filter_cons, hbsel]
        rw [hfc, hzc]
        exact ih

lemma takeIndices_select {α : Type} (row : List α) (bands sel : List String)
    (h : row.length = bands.length) :
    takeIndices row (select_indices bands sel)
      = .ok (((row.zip bands).filter (fun p => decide (p.2 ∈ sel))).map Prod.fst) := by
  have := takeIndices_enumFrom sel bands [] row h
  simpa [select_indices, List.enum] using this

lemma sliceAxis1_select (arr : Arr4) (bands sel : List String)
    (h : ∀ t ∈ arr, t.length = bands.length) :
    sliceAxis1 arr (select_indices bands sel)
      = .ok (arr.map (fun t => ((t.zip bands).filter (fun p => decide (p.2 ∈ sel))).map Prod.fst)) := by
  induction arr with
  | nil => rfl
  | cons t ts ih =>
    simp only [sliceAxis1, takeIndices_select t bands sel (h t (List.mem_cons_self t ts)),
      ih (fun x hx => h x (List.mem_cons_of_mem t hx)), List.map_cons]

/-! ### Structure of the select-bands loop and of the accessor -/

lemma selectBandsLoop_newSats (stack0 : List (String × Arr4)) :
    ∀ (cfg : List (String × List String)) (stackAcc : List (String × Arr4))
      (newSats origSats : List (String × SatelliteMetadata))
      (s : List (String × Arr4)) (n o : List (String × SatelliteMetadata)),
    selectBandsLoop stack0 cfg stackAcc newSats origSats = .ok (s, n, o) →
    n = newSats ++ cfg.map (fun p => (p.1, SatelliteMetadata.mk p.2))
  | [], stackAcc, newSats, origSats, s, n, o, h => by
    simp only [selectBandsLoop, Except.ok.injEq, Prod.mk.injEq] at h
    simp [← h.2.1]
  | (key, sel) :: rest, stackAcc, newSats, origSats, s, n, o, h => by
    simp only [selectBandsLoop] at h
    cases h1 : alookup origSats key with
    | none => simp only [h1] at h; exact absurd h (by simp)
    | some satMeta =>
      simp only [h1] at h
      cases h2 : alookup stack0 key with
      | none => simp only [h2] at h; exact absurd h (by simp)
      | some arr =>
        simp only [h2] at h
        cases h3 : sliceAxis1 arr (select_indices satMeta.bands sel) with
        | error e => simp only [h3] at h; exact absurd h (by simp)
        | ok sliced =>
          simp only [h3] at h
          have := selectBandsLoop_newSats stack0 rest (stackAcc ++ [(key, sliced)])
            (newSats ++ [(key, ⟨sel⟩)]) (setBands origSats key sel) s n o h
          simp [this]

lemma alookup_append {β : Type} : ∀ (l₁ l₂ : List (String × β)) (k : String),
    alookup (l₁ ++ l₂) k = match alookup l₁ k with
      | some v => some v
      | none => alookup l₂ k
  | [], _, _ => rfl
  | p :: rest, l₂, k => by
    by_cases hp : p.1 = k
    · simp [alookup, hp]
    · simp only [List.cons_append, alookup, hp, if_false]
      exact alookup_append rest l₂ k

lemma alookup_setBands_ne (key : String) (bs : List String) (S : String) (hne : S ≠ key) :
    ∀ sats : List (String × SatelliteMetadata),
    alookup (setBands sats key bs) S = alookup sats S
  | [] => rfl
  | p :: rest => by
    have hrec := alookup_setBands_ne key bs S hne rest
    simp only [setBands, List.map_cons] at hrec ⊢
    by_cases hpk : p.1 = key
    · have hpS : ¬ p.1 = S := fun hh => hne (by rw [← hh, hpk])
      rw [if_pos hpk]
      simp only [alookup]
      rw [if_neg hpS, if_neg hpS]
      exact hrec
    · rw [if_neg hpk]
      simp only [alookup]
      by_cases hpS : p.1 = S
      · rw [if_pos hpS, if_pos hpS]
      · rw [if_neg hpS, if_neg hpS]
        exact hrec

lemma selectBandsLoop_stack (stack0 : List (String × Arr4)) :
    ∀ (cfg : List (String × List String)) (stackAcc : List (String × Arr4))
      (newSats origSats : List (String × SatelliteMetadata))
      (s : List (String × Arr4)) (n o : List (String × SatelliteMetadata)),
    selectBandsLoop stack0 cfg stackAcc newSats origSats = .ok (s, n, o) →
    ∃ extra, s = stackAcc ++ extra ∧ extra.map Prod.fst = cfg.map Prod.fst
  | [], stackAcc, newSats, origSats, s, n, o, h => by
    simp only [selectBandsLoop, Except.ok.injEq, Prod.mk.injEq] at h
    exact ⟨[], by simp [← h.1], by simp⟩
  | (key, sel') :: rest, stackAcc, newSats, origSats, s, n, o, h => by
    simp only [selectBandsLoop] at h
    cases h1 : alookup origSats key with
    | none => simp only [h1] at h; exact absurd h (by simp)
    | some satMeta =>
      simp only [h1] at h
      cases h2 : alookup stack0 key with
      | none => simp only [h2] at h; exact absurd h (by simp)
      | some arr =>
        simp only [h2] at h
        cases h3 : sliceAxis1 arr (select_indices satMeta.bands sel') with
        | error e => simp only [h3] at h; exact absurd h (by simp)
        | ok sliced =>
          simp only [h3] at h
          obtain ⟨extra, hs, hk⟩ := selectBandsLoop_stack stack0 rest
            (stackAcc ++ [(key, sliced)]) (newSats ++ [(key, ⟨sel'⟩)])
            (setBands origSats key sel') s n o h
          refine ⟨(key, sliced) :: extra, ?_, by simp [hk]⟩
          rw [hs]
          simp

/-- For any entry (S, sel) of a distinct-key selection configuration, a
successful run of the select-bands loop records the band list `sel` verbatim
in the produced metadata and pairs S with its array sliced at the positions of
the bands of S's ORIGINAL band list that belong to `sel`, kept in the
original order. -/
lemma selectBandsLoop_entry (stack0 : List (String × Arr4)) (S : String)
    (sel : List String) (satMeta : SatelliteMetadata) (arr : Arr4)
    (hstk : alookup stack0 S = some arr)
    (hlen : ∀ t ∈ arr, t.length = satMeta.bands.length) :
    ∀ (cfg : List (String × List String)) (stackAcc : List (String × Arr4))
      (newSats origSats : List (String × SatelliteMetadata))
      (s : List (String × Arr4)) (n o : List (String × SatelliteMetadata)),
    selectBandsLoop stack0 cfg stackAcc newSats origSats = .ok (s, n, o) →
    (S, sel) ∈ cfg →
    (cfg.map Prod.fst).Nodup →
    alookup origSats S = some satMeta →
    alookup stackAcc S = none →
    alookup newSats S = none →
    alookup s S = some (arr.map (fun t =>
        ((t.zip satMeta.bands).filter (fun p => decide (p.2 ∈ sel))).map Prod.fst)) ∧
      alookup n S = some ⟨sel⟩
  | [], _, _, _, _, _, _, _, hmem, _, _, _, _ => absurd hmem (List.not_mem_nil _)
  | (key, sel') :: rest, stackAcc, newSats, origSats, s, n, o, h, hmem, hnd, hos, hsa, hna => by
    simp only [selectBandsLoop] at h
    rw [List.map_cons] at hnd
    have hndc := List.nodup_cons.mp hnd
    cases h1 : alookup origSats key with
    | none => simp only [h1] at h; exact absurd h (by simp)
    | some sm =>
      simp only [h1] at h
      cases h2 : alookup stack0 key with
      | none => simp only [h2] at h; exact absurd h (by simp)
      | some a =>
        simp only [h2] at h
        cases h3 : sliceAxis1 a (select_indices sm.bands sel') with
        | error e => simp only [h3] at h; exact absurd h (by simp)
        | ok sliced =>
          simp only [h3] at h
          rcases List.mem_cons.mp hmem with heq | hmemrest
          · have hk : key = S := (congrArg Prod.fst heq).symm
            have hsel' : sel' = sel := (congrArg Prod.snd heq).symm
            rw [hk] at h1 h2
            rw [hk, hsel'] at h
            rw [hsel'] at h3
            have hsm : sm = satMeta := Option.some.inj (h1.symm.trans hos)
            have ha : a = arr := Option.some.inj (h2.symm.trans hstk)
            rw [hsm, ha] at h3
            have hform := sliceAxis1_select arr satMeta.bands sel hlen
            have hsl : sliced = arr.map (fun t =>
                ((t.zip satMeta.bands).filter (fun p => decide (p.2 ∈ sel))).map Prod.fst) :=
              Except.ok.inj (h3.symm.trans hform)
            obtain ⟨extra, hsEq, hkeys⟩ := selectBandsLoop_stack stack0 rest
              (stackAcc ++ [(S, sliced)]) (newSats ++ [(S, ⟨sel⟩)])
              (setBands origSats S sel) s n o h
            have hnEq := selectBandsLoop_newSats stack0 rest
              (stackAcc ++ [(S, sliced)]) (newSats ++ [(S, ⟨sel⟩)])
              (setBands origSats S sel) s n o h
            constructor
            · rw [hsEq, alookup_append, alookup_append, hsa, hsl]
              simp [alookup]
            · rw [hnEq, alookup_append, alookup_append, hna]
              simp [alookup]
          · have hSk : S ≠ key := by
              intro hEq
              have hkeymem : S ∈ rest.map Prod.fst := List.mem_map_of_mem Prod.fst hmemrest
              rw [hEq] at hkeymem
              exact hndc.1 hkeymem
            refine selectBandsLoop_entry stack0 S sel satMeta arr hstk hlen rest
              (stackAcc ++ [(key, sliced)]) (newSats ++ [(key, ⟨sel'⟩)])
              (setBands origSats key sel') s n o h hmemrest hndc.2 ?_ ?_ ?_
            · rw [alookup_setBands_ne key sel' S hSk origSats]
              exact hos
            · rw [alookup_append, hsa]
              simp [alookup, Ne.symm hSk]
            · rw [alookup_append, hna]
              simp [alookup, Ne.symm hSk]

lemma alookup_absent {β : Type} (k : String) :
    ∀ (l : List (String × β)), (∀ p ∈ l, p.1 ≠ k) → alookup l k = none
  | [], _ => rfl
  | p :: rest, h => by
    have hp : p.1 ≠ k := h p (List.mem_cons_self p rest)
    simp only [alookup, hp, if_false]
    exact alookup_absent k rest (fun q hq => h q (List.mem_cons_of_mem p hq))

lemma getitem_eq (ds : DSE) (idx : Nat) (name : String) (stack : List (String × Arr4))
    (nm pm : TileMetadata) (g : Arr4) (y0 : Arr3)
    (h1 : nth? ds.tiles idx = some name)
    (h2 : select_bands ds.selected_bands (ds.load name) = .ok (stack, nm, pm))
    (h3 : alookup (ds.load name).satellite_stack "gt" = some g)
    (h4 : squeeze g = .ok y0)
    (h5 : ds.transform = none) :
    getitem ds idx = .ok (stackNonGt stack, map3 (fun v => v - 1) y0, nm) := by
  simp only [getitem, h1, h2, h3, h4, h5]

lemma squeeze_ok (g : Arr4) (y0 : Arr3) (h : squeeze g = .ok y0) : g = [y0] := by
  match g, h with
  | [m], h => simp only [squeeze, Except.ok.injEq] at h; rw [h]

lemma map3_sub_add (a : Arr3) : map3 (fun v => v + 1) (map3 (fun v => v - 1) a) = a := by
  simp [map3, List.map_map, Function.comp_def]

lemma hasShape3_map3 (f : Int → Int) (a : Arr3) (c h w : Nat)
    (hs : hasShape3 a c h w) : hasShape3 (map3 f a) c h w := by
  obtain ⟨hlen, hmem⟩ := hs
  refine ⟨by simp [map3, hlen], ?_⟩
  intro m hm
  rw [map3, List.mem_map] at hm
  obtain ⟨m0, hm0, rfl⟩ := hm
  obtain ⟨hlen2, hmem2⟩ := hmem m0 hm0
  refine ⟨by simp [hlen2], ?_⟩
  intro r hr
  rw [List.mem_map] at hr
  obtain ⟨r0, hr0, rfl⟩ := hr
  simp [hmem2 r0 hr0]

lemma stackNonGt_length (bdim : String → Nat) :
    ∀ (stack : List (String × Arr4)) (X0 : Arr3),
    (∀ p ∈ stack, ∀ r ∈ p.2, r.length = bdim p.1) →
    (List.foldl
      (fun X p =>
        if p.1 ≠ "gt" then
          (if X.length = 0 then aggregate_time p.2 else X ++ aggregate_time p.2)
        else X)
      X0 stack).length
      = X0.length + ((stack.filter (fun p => decide (p.1 ≠ "gt"))).map
          (fun p => p.2.length * bdim p.1)).sum
  | [], X0, _ => by simp
  | p :: ps, X0, h => by
    have hmemtail : ∀ q ∈ ps, ∀ r ∈ q.2, r.length = bdim q.1 :=
      fun q hq => h q (List.mem_cons_of_mem p hq)
    have hagg : (aggregate_time p.2).length = p.2.length * bdim p.1 := by
      rw [aggregate_time, List.length_flatten]
      exact sum_const_lengths (bdim p.1) p.2 (h p (List.mem_cons_self p ps))
    rw [List.foldl_cons]
    by_cases hp : p.1 = "gt"
    · have hstep : (if p.1 ≠ "gt" then
          (if X0.length = 0 then aggregate_time p.2 else X0 ++ aggregate_time p.2)
        else X0) = X0 := by simp [hp]
      have hfc : (p :: ps).filter (fun q => decide (q.1 ≠ "gt"))
          = ps.filter (fun q => decide (q.1 ≠ "gt")) := by
        simp [List.filter_cons, hp]
      rw [hstep, hfc]
      exact stackNonGt_length bdim ps X0 hmemtail
    · have hstep : (if p.1 ≠ "gt" then
          (if X0.length = 0 then aggregate_time p.2 else X0 ++ aggregate_time p.2)
        else X0) = (if X0.length = 0 then aggregate_time p.2 else X0 ++ aggregate_time p.2) := by
        simp [hp]
      have hfc : (p :: ps).filter (fun q => decide (q.1 ≠ "gt"))
          = p :: ps.filter (fun q => decide (q.1 ≠ "gt")) := by
        simp [List.filter_cons, hp]
      rw [hstep, hfc]
      by_cases hX : X0.length = 0
      · rw [if_pos hX, stackNonGt_length bdim ps (aggregate_time p.2) hmemtail]
        rw [List.map_cons, List.sum_cons, hagg, hX]
        omega
      · rw [if_neg hX, stackNonGt_length bdim ps (X0 ++ aggregate_time p.2) hmemtail]
        rw [List.map_cons, List.sum_cons, List.length_append, hagg]
        omega

/-! ### Behaviour of the find-subtile scan -/

lemma findLoop_hits (ds : DSE) (tile_id i j : Nat) :
    ∀ (l : List String) (k p : Nat) (name : String),
    nth? l p = some name → searchTile name = some (tile_id, i, j) →
    (∀ m, m < p → ∀ nm, nth? l m = some nm →
      ∃ g, searchTile nm = some g ∧ g ≠ (tile_id, i, j)) →
    findLoop ds tile_id i j k l = getitem ds (k + p)
  | [], _, p, name, hp, _, _ => by simp [nth?] at hp
  | nm0 :: rest, k, 0, name, hp, hs, _ => by
    have : nm0 = name := by simpa [nth?] using hp
    subst this
    simp only [findLoop, hs]
    rw [if_pos ⟨trivial, trivial, trivial⟩, Nat.add_zero]
  | nm0 :: rest, k, p + 1, name, hp, hs, hbefore => by
    obtain ⟨⟨a, b, c⟩, hg, hne⟩ := hbefore 0 (Nat.succ_pos p) nm0 rfl
    simp only [findLoop, hg]
    rw [if_neg (fun hc => hne (by simp [hc.1, hc.2.1, hc.2.2]))]
    have := findLoop_hits ds tile_id i j rest (k + 1) p name hp hs
      (fun m hm nm hnm => hbefore (m + 1) (Nat.succ_lt_succ hm) nm hnm)
    rw [this]
    congr 1
    omega

lemma findLoop_miss (ds : DSE) (tile_id i j : Nat) :
    ∀ (l : List String) (k : Nat),
    (∀ nm ∈ l, ∃ g, searchTile nm = some g ∧ g ≠ (tile_id, i, j)) →
    findLoop ds tile_id i j k l
      = .error (.valueError ("Could not find Tile" ++ toString tile_id ++ "_" ++ toString i ++
          "_" ++ toString j ++ ".npz in the dataset"))
  | [], _, _ => rfl
  | nm0 :: rest, k, hall => by
    obtain ⟨⟨a, b, c⟩, hg, hne⟩ := hall nm0 (List.mem_cons_self nm0 rest)
    simp only [findLoop, hg]
    rw [if_neg (fun hc => hne (by simp [hc.1, hc.2.1, hc.2.2]))]
    exact findLoop_miss ds tile_id i j rest (k + 1)
      (fun nm hnm => hall nm (List.mem_cons_of_mem nm0 hnm))

lemma findLoop_bad (ds : DSE) (tile_id i j : Nat) :
    ∀ (l : List String) (k0 k : Nat) (bad : String),
    nth? l k = some bad → searchTile bad = none →
    (∀ m, m < k → ∀ nm, nth? l m = some nm →
      ∃ g, searchTile nm = some g ∧ g ≠ (tile_id, i, j)) →
    findLoop ds tile_id i j k0 l = .error .attributeError
  | [], _, k, bad, hk, _, _ => by simp [nth?] at hk
  | nm0 :: rest, k0, 0, bad, hk, hbad, _ => by
    have : nm0 = bad := by simpa [nth?] using hk
    subst this
    simp only [findLoop, hbad]
  | nm0 :: rest, k0, k + 1, bad, hk, hbad, hbefore => by
    obtain ⟨⟨a, b, c⟩, hg, hne⟩ := hbefore 0 (Nat.succ_pos k) nm0 rfl
    simp only [findLoop, hg]
    rw [if_neg (fun hc => hne (by simp [hc.1, hc.2.1, hc.2.2]))]
    exact findLoop_bad ds tile_id i j rest (k0 + 1) k bad hk hbad
      (fun m hm nm hnm => hbefore (m + 1) (Nat.succ_lt_succ hm) nm hnm)

/-! ### Concrete sample datasets used by witnesses and counterexamples -/

/-- The spec scenario's raw ground truth, shape (1,4,4), values in 1..3. -/
def gt3A : Arr3 := [[[1, 2, 1, 2], [2, 3, 2, 3], [1, 1, 1, 1], [3, 3, 3, 3]]]

/-- Ground-truth array of shape (1,1,4,4). -/
def gtA : Arr4 := [gt3A]

/-- A non-label source array of shape (2,3,4,4). -/
def satA : Arr4 :=
  List.replicate 2 (List.replicate 3 (List.replicate 4 (List.replicate 4 (5 : Int))))

/-- Bundle for the spec scenario: one non-label source and the ground truth. -/
def subtileA : Subtile :=
  { satellite_stack := [("sentinel1", satA), ("gt", gtA)],
    tile_metadata := ⟨[("sentinel1", ⟨["VV", "VH", "VVVH"]⟩), ("gt", ⟨["gt"]⟩)]⟩ }

/-- Spec-scenario dataset: one file, no band selection, no transform. -/
def dsA : DSE :=
  { tiles := ["Tile1_0_0.npz"], selected_bands := none, transform := none,
    load := fun _ => subtileA }

/-- Expected assembled input for `dsA`: shape (6,4,4). -/
def inputA : Arr3 :=
  List.replicate 6 (List.replicate 4 (List.replicate 4 (5 : Int)))

/-- Expected label for `dsA`: the ground truth squeezed and shifted by −1. -/
def labelA : Arr3 := [[[0, 1, 0, 1], [1, 2, 1, 2], [0, 0, 0, 0], [2, 2, 2, 2]]]

/-- A (1,2,1,1) source whose two bands hold distinguishable values 10 and 20. -/
def arrB : Arr4 := [[[[10]], [[20]]]]

/-- Bundle with source "sat" (bands B1, B2) and a trivial ground truth. -/
def subtileB : Subtile :=
  { satellite_stack := [("sat", arrB), ("gt", [[[[1]]]])],
    tile_metadata := ⟨[("sat", ⟨["B1", "B2"]⟩), ("gt", ⟨["gt"]⟩)]⟩ }

/-- Dataset whose selection requests the bands of "sat" in REVERSED order. -/
def dsB : DSE :=
  { tiles := ["Tile1_0_0.npz"], selected_bands := some [("sat", ["B2", "B1"])],
    transform := none, load := fun _ => subtileB }

/-- Dataset whose selection keeps only band B1 of "sat" (and does not list "gt"). -/
def dsC4 : DSE :=
  { tiles := ["Tile1_0_0.npz"], selected_bands := some [("sat", ["B1"])],
    transform := none, load := fun _ => subtileB }

/-- Dataset whose first file name does not match the lookup pattern while the
second one does. -/
def dsC7 : DSE :=
  { tiles := ["garbage.npz", "Tile1_0_0.npz"], selected_bands := none,
    transform := none, load := fun _ => subtileB }

/-- Dataset whose only file name does not match the lookup pattern. -/
def dsC8 : DSE :=
  { tiles := ["garbage.npz"], selected_bands := none, transform := none,
    load := fun _ => subtileB }

/-- Dataset with one well-formed file name that matches no requested triple. -/
def dsW8 : DSE :=
  { tiles := ["Tile2_0_0.npz"], selected_bands := none, transform := none,
    load := fun _ => subtileB }

/-- Dataset with a non-matching name before a file that matches the request. -/
def dsC10 : DSE :=
  { tiles := ["garbage.npz", "Tile3_1_2.npz"], selected_bands := none,
    transform := none, load := fun _ => subtileB }

/-- A (2,2,1,1) array with four distinguishable entries. -/
def imgW : Arr4 := [[[[1]], [[2]]], [[[3]], [[4]]]]

/-! ### Claims -/

/-- Claim C1 fails on the code: for the spec's own scenario (ground truth of
shape (1,1,4,4)), the positional accessor returns a label of numpy shape
(1,4,4) — `np.squeeze(y, axis=0)` removes only the time axis and keeps the
singleton band axis — not shape (4,4) as claimed. -/
theorem c1_label_shape_cex :
    (getitem dsA 0).map (fun r => shape3 r.2.1) = .ok [1, 4, 4] ∧
      ([1, 4, 4] : List Nat) ≠ [4, 4] :=
  ⟨rfl, by decide⟩

/-- Claim C1 (amended): for every valid index with no transform configured whose
loaded bundle has a ground-truth array of shape (1, b, h, w) — a singleton
time axis — the positional accessor returns a label of shape (b, h, w): the
time axis is removed but the band axis is retained, so a (1,1,4,4) ground
truth yields a label of shape (1,4,4). -/
theorem c1_label_shape_amended (ds : DSE) (idx : Nat) (name : String)
    (stack : List (String × Arr4)) (nm pm : TileMetadata) (g : Arr4)
    (X y : Arr3) (m : TileMetadata) (b h w : Nat)
    (h1 : nth? ds.tiles idx = some name)
    (h2 : select_bands ds.selected_bands (ds.load name) = .ok (stack, nm, pm))
    (h3 : alookup (ds.load name).satellite_stack "gt" = some g)
    (h5 : ds.transform = none)
    (hg : hasShape4 g 1 b h w)
    (hget : getitem ds idx = .ok (X, y, m)) :
    hasShape3 y b h w := by
  obtain ⟨hlen, hmem⟩ := hg
  cases g with
  | nil => simp at hlen
  | cons g0 gtl =>
    cases gtl with
    | cons g1 gtl2 => simp only [List.length_cons] at hlen; omega
    | nil =>
      have h4 : squeeze [g0] = .ok g0 := rfl
      have heq := getitem_eq ds idx name stack nm pm [g0] g0 h1 h2 h3 h4 h5
      rw [hget] at heq
      simp only [Except.ok.injEq, Prod.mk.injEq] at heq
      obtain ⟨hX, hy, hm⟩ := heq
      rw [hy]
      exact hasShape3_map3 _ _ _ _ _ (hmem g0 (List.mem_cons_self g0 []))

/-- Witness for the amended claim C1 at the spec-scenario dataset `dsA`. -/
theorem c1_label_shape_witness : hasShape3 labelA 1 4 4 :=
  c1_label_shape_amended dsA 0 "Tile1_0_0.npz" subtileA.satellite_stack
    subtileA.tile_metadata subtileA.tile_metadata gtA inputA labelA
    subtileA.tile_metadata 1 4 4 rfl rfl rfl rfl (by decide) rfl

/-- Claim C2 fails on the code: requesting the bands of "sat" as ["B2","B1"]
(reversed) yields an input whose band slices are still in the source's
original order (10 then 20), not the requested order (20 then 10), while the
returned metadata lists ["B2","B1"]; so the array's band order does not follow
the requested list. -/
theorem c2_band_order_cex :
    getitem dsB 0 = .ok ([[[10]], [[20]]], [[[0]]], ⟨[("sat", ⟨["B2", "B1"]⟩)]⟩) ∧
      ([[[10]], [[20]]] : Arr3) ≠ [[[20]], [[10]]] :=
  ⟨rfl, by decide⟩

/-- Claim C2 (amended): for every band-selection configuration (distinct keys,
as a Python dict guarantees) with an entry restricting a source S (≠ "gt") to
a band list `sel`, the positional accessor slices S's array at the positions
of the bands of S's current band list that belong to `sel`, kept in the
SOURCE'S original band order (ascending positions, not the order of the
requested list); the filtered stack carries exactly that slice for S, the
returned input is assembled from that stack, and the returned metadata's band
list for S is exactly `sel` as requested. -/
theorem c2_band_select_amended (ds : DSE) (idx : Nat) (name : String)
    (cfg : List (String × List String)) (S : String) (sel : List String)
    (satMeta : SatelliteMetadata) (arr g : Arr4) (y0 : Arr3)
    (stack : List (String × Arr4)) (nm pm : TileMetadata)
    (X y : Arr3) (m : TileMetadata)
    (hcfg : ds.selected_bands = some cfg)
    (hmem : (S, sel) ∈ cfg)
    (hNodup : (cfg.map Prod.fst).Nodup)
    (h1 : nth? ds.tiles idx = some name)
    (hmeta : alookup (ds.load name).tile_metadata.satellites S = some satMeta)
    (hstack : alookup (ds.load name).satellite_stack S = some arr)
    (hlen : ∀ t ∈ arr, t.length = satMeta.bands.length)
    (h2 : select_bands ds.selected_bands (ds.load name) = .ok (stack, nm, pm))
    (h3 : alookup (ds.load name).satellite_stack "gt" = some g)
    (h4 : squeeze g = .ok y0)
    (h5 : ds.transform = none)
    (hget : getitem ds idx = .ok (X, y, m)) :
    alookup stack S
        = some (arr.map (fun t =>
            ((t.zip satMeta.bands).filter (fun p => decide (p.2 ∈ sel))).map Prod.fst)) ∧
      alookup m.satellites S = some ⟨sel⟩ ∧
      X = stackNonGt stack := by
  have heq := getitem_eq ds idx name stack nm pm g y0 h1 h2 h3 h4 h5
  rw [hget] at heq
  simp only [Except.ok.injEq, Prod.mk.injEq] at heq
  obtain ⟨hX, hy, hm⟩ := heq
  have h2copy := h2
  rw [hcfg] at h2copy
  simp only [select_bands] at h2copy
  cases hloop : selectBandsLoop (ds.load name).satellite_stack cfg [] []
      (ds.load name).tile_metadata.satellites with
  | error e => simp only [hloop] at h2copy; exact absurd h2copy (by simp)
  | ok trip =>
    obtain ⟨s', n', o'⟩ := trip
    simp only [hloop, Except.ok.injEq, Prod.mk.injEq] at h2copy
    obtain ⟨hs', hn', ho'⟩ := h2copy
    obtain ⟨hstackS, hnS⟩ := selectBandsLoop_entry (ds.load name).satellite_stack S sel
      satMeta arr hstack hlen cfg [] [] (ds.load name).tile_metadata.satellites
      s' n' o' hloop hmem hNodup hmeta rfl rfl
    refine ⟨?_, ?_, hX⟩
    · rw [← hs']
      exact hstackS
    · rw [hm, ← hn']
      exact hnS

/-- Witness for the amended claim C2 at the reversed-request dataset `dsB`:
the configuration restricts "sat" (original bands [B1, B2]) to [B2, B1]; the
filtered stack keeps the array's original band order while the metadata holds
[B2, B1]. -/
theorem c2_band_select_witness :
    alookup [("sat", [[[[10]], [[20]]]])] "sat"
        = some (arrB.map (fun t =>
            ((t.zip ["B1", "B2"]).filter
              (fun p => decide (p.2 ∈ (["B2", "B1"] : List String)))).map Prod.fst)) ∧
      alookup (TileMetadata.mk [("sat", ⟨["B2", "B1"]⟩)]).satellites "sat"
        = some ⟨["B2", "B1"]⟩ ∧
      ([[[10]], [[20]]] : Arr3) = stackNonGt [("sat", [[[[10]], [[20]]]])] :=
  c2_band_select_amended dsB 0 "Tile1_0_0.npz" [("sat", ["B2", "B1"])] "sat"
    ["B2", "B1"] ⟨["B1", "B2"]⟩ arrB [[[[1]]]] [[[1]]]
    [("sat", [[[[10]], [[20]]]])] ⟨[("sat", ⟨["B2", "B1"]⟩)]⟩
    ⟨[("sat", ⟨["B2", "B1"]⟩), ("gt", ⟨["gt"]⟩)]⟩
    [[[10]], [[20]]] [[[0]]] ⟨[("sat", ⟨["B2", "B1"]⟩)]⟩
    rfl (by decide) (by decide) rfl rfl rfl (by decide) rfl rfl rfl rfl rfl

/-- Claim C3 is right about the intent but wrong about the code (code bug):
`__select_bands` deep-copies the metadata, but then rebinds
`new_metadata.satellites[key]` to the ORIGINAL
`subtile.tile_metadata.satellites[key]` object and mutates that object's
`bands` in place, so the loaded bundle's own metadata IS changed by the call:
filtering "sat" to ["B2"] turns the bundle's band list ["B1","B2"] into
["B2"] (third component, the post-call state), which differs from the
pre-call metadata. -/
theorem c3_metadata_mutation_bug :
    select_bands (some [("sat", ["B2"])]) subtileB
      = .ok ([("sat", [[[[20]]]])],
             ⟨[("sat", ⟨["B2"]⟩)]⟩,
             ⟨[("sat", ⟨["B2"]⟩), ("gt", ⟨["gt"]⟩)]⟩) ∧
      (⟨[("sat", ⟨["B2"]⟩), ("gt", ⟨["gt"]⟩)]⟩ : TileMetadata) ≠ subtileB.tile_metadata :=
  ⟨rfl, by decide⟩

/-- Claim C4 fails on the code: with a selection configuration active that does
not list "gt", the returned metadata contains only the configured sources —
the ground-truth entry present in the bundle's metadata is dropped from the
output. -/
theorem c4_gt_metadata_cex :
    (getitem dsC4 0).map (fun r => alookup r.2.2.satellites "gt") = .ok none ∧
      alookup subtileB.tile_metadata.satellites "gt" = some ⟨["gt"]⟩ :=
  ⟨rfl, rfl⟩

/-- Claim C4 (amended): with an active band-selection configuration that does
not list the ground-truth source as a key, the label is still built from the
unfiltered ground-truth array (`subtile.satellite_stack["gt"]`, time-squeezed
then shifted by −1), but the returned metadata consists of exactly the
configured sources, so it does NOT contain the ground-truth source's entry. -/
theorem c4_gt_passthrough_amended (ds : DSE) (idx : Nat) (name : String)
    (cfg : List (String × List String)) (stack : List (String × Arr4))
    (nm pm : TileMetadata) (g : Arr4) (y0 : Arr3) (X y : Arr3) (m : TileMetadata)
    (hcfg : ds.selected_bands = some cfg)
    (hgt : ∀ q ∈ cfg, q.1 ≠ "gt")
    (h1 : nth? ds.tiles idx = some name)
    (h2 : select_bands ds.selected_bands (ds.load name) = .ok (stack, nm, pm))
    (h3 : alookup (ds.load name).satellite_stack "gt" = some g)
    (h4 : squeeze g = .ok y0)
    (h5 : ds.transform = none)
    (hget : getitem ds idx = .ok (X, y, m)) :
    g = [y0] ∧ y = map3 (fun v => v - 1) y0 ∧
      m.satellites = cfg.map (fun p => (p.1, SatelliteMetadata.mk p.2)) ∧
      alookup m.satellites "gt" = none := by
  have heq := getitem_eq ds idx name stack nm pm g y0 h1 h2 h3 h4 h5
  rw [hget] at heq
  simp only [Except.ok.injEq, Prod.mk.injEq] at heq
  obtain ⟨hX, hy, hm⟩ := heq
  rw [hcfg] at h2
  simp only [select_bands] at h2
  cases hloop : selectBandsLoop (ds.load name).satellite_stack cfg [] []
      (ds.load name).tile_metadata.satellites with
  | error e => simp only [hloop] at h2; exact absurd h2 (by simp)
  | ok trip =>
    obtain ⟨s', n', o'⟩ := trip
    simp only [hloop, Except.ok.injEq, Prod.mk.injEq] at h2
    obtain ⟨hs', hn', ho'⟩ := h2
    have hmap : n' = cfg.map (fun p => (p.1, SatelliteMetadata.mk p.2)) := by
      simpa using selectBandsLoop_newSats (ds.load name).satellite_stack cfg [] []
        (ds.load name).tile_metadata.satellites s' n' o' hloop
    have hsats : m.satellites = cfg.map (fun p => (p.1, SatelliteMetadata.mk p.2)) := by
      rw [hm, ← hn', hmap]
    refine ⟨squeeze_ok g y0 h4, hy, hsats, ?_⟩
    rw [hsats]
    refine alookup_absent "gt" _ ?_
    intro p hp
    rw [List.mem_map] at hp
    obtain ⟨q, hq, rfl⟩ := hp
    exact hgt q hq

/-- Witness for the amended claim C4 at the dataset `dsC4` whose selection
keeps only band B1 of "sat". -/
theorem c4_gt_passthrough_witness :
    ([[[[1]]]] : Arr4) = [([[[1]]] : Arr3)] ∧
      ([[[0]]] : Arr3) = map3 (fun v => v - 1) [[[1]]] ∧
      (⟨[("sat", ⟨["B1"]⟩)]⟩ : TileMetadata).satellites
        = ([("sat", ["B1"])] : List (String × List String)).map
            (fun p => (p.1, SatelliteMetadata.mk p.2)) ∧
      alookup (⟨[("sat", ⟨["B1"]⟩)]⟩ : TileMetadata).satellites "gt" = none :=
  c4_gt_passthrough_amended dsC4 0 "Tile1_0_0.npz" [("sat", ["B1"])]
    [("sat", [[[[10]]]])] ⟨[("sat", ⟨["B1"]⟩)]⟩ ⟨[("sat", ⟨["B1"]⟩), ("gt", ⟨["gt"]⟩)]⟩
    [[[[1]]]] [[[1]]] [[[10]]] [[[0]]] ⟨[("sat", ⟨["B1"]⟩)]⟩
    rfl (by intro q hq; simp at hq; subst hq; decide) rfl rfl rfl rfl rfl rfl

/-- Claim C5: for every valid index with no transform configured, the returned
input array's first-axis length equals the sum, over all non-"gt" sources of
the band-filtered stack, of that source's time dimension multiplied by its
(filtered) band dimension. -/
theorem c5_input_length (ds : DSE) (idx : Nat) (name : String)
    (stack : List (String × Arr4)) (nm pm : TileMetadata) (g : Arr4) (y0 : Arr3)
    (X y : Arr3) (m : TileMetadata) (bdim : String → Nat)
    (h1 : nth? ds.tiles idx = some name)
    (h2 : select_bands ds.selected_bands (ds.load name) = .ok (stack, nm, pm))
    (h3 : alookup (ds.load name).satellite_stack "gt" = some g)
    (h4 : squeeze g = .ok y0)
    (h5 : ds.transform = none)
    (hget : getitem ds idx = .ok (X, y, m))
    (hdims : ∀ p ∈ stack, ∀ r ∈ p.2, r.length = bdim p.1) :
    X.length = ((stack.filter (fun p => decide (p.1 ≠ "gt"))).map
        (fun p => p.2.length * bdim p.1)).sum := by
  have heq := getitem_eq ds idx name stack nm pm g y0 h1 h2 h3 h4 h5
  rw [hget] at heq
  simp only [Except.ok.injEq, Prod.mk.injEq] at heq
  obtain ⟨hX, hy, hm⟩ := heq
  rw [hX]
  simp only [stackNonGt]
  rw [stackNonGt_length bdim stack [] hdims]
  simp

/-- Witness for claim C5 at the spec-scenario dataset `dsA`: the single
non-"gt" source has time 2 and band 3, so the input's first axis is 6. -/
theorem c5_input_length_witness :
    inputA.length = ((subtileA.satellite_stack.filter (fun p => decide (p.1 ≠ "gt"))).map
        (fun p => p.2.length * (if p.1 = "gt" then 1 else 3))).sum :=
  c5_input_length dsA 0 "Tile1_0_0.npz" subtileA.satellite_stack
    subtileA.tile_metadata subtileA.tile_metadata gtA gt3A inputA labelA
    subtileA.tile_metadata (fun s => if s = "gt" then 1 else 3)
    rfl rfl rfl rfl rfl rfl (by decide)

/-- Claim C6: for every valid index with no transform configured, the raw
ground truth is the time-singleton `[y0]` and the returned label equals `y0`
with every value decremented by 1; adding 1 back to every returned label
value recovers the original ground-truth values exactly. -/
theorem c6_label_shift (ds : DSE) (idx : Nat) (name : String)
    (stack : List (String × Arr4)) (nm pm : TileMetadata) (g : Arr4) (y0 : Arr3)
    (X y : Arr3) (m : TileMetadata)
    (h1 : nth? ds.tiles idx = some name)
    (h2 : select_bands ds.selected_bands (ds.load name) = .ok (stack, nm, pm))
    (h3 : alookup (ds.load name).satellite_stack "gt" = some g)
    (h4 : squeeze g = .ok y0)
    (h5 : ds.transform = none)
    (hget : getitem ds idx = .ok (X, y, m)) :
    g = [y0] ∧ y = map3 (fun v => v - 1) y0 ∧ map3 (fun v => v + 1) y = y0 := by
  have heq := getitem_eq ds idx name stack nm pm g y0 h1 h2 h3 h4 h5
  rw [hget] at heq
  simp only [Except.ok.injEq, Prod.mk.injEq] at heq
  obtain ⟨hX, hy, hm⟩ := heq
  refine ⟨squeeze_ok g y0 h4, hy, ?_⟩
  rw [hy]
  exact map3_sub_add y0

/-- Witness for claim C6 at the spec-scenario dataset `dsA`. -/
theorem c6_label_shift_witness :
    gtA = [gt3A] ∧ labelA = map3 (fun v => v - 1) gt3A ∧
      map3 (fun v => v + 1) labelA = gt3A :=
  c6_label_shift dsA 0 "Tile1_0_0.npz" subtileA.satellite_stack
    subtileA.tile_metadata subtileA.tile_metadata gtA gt3A inputA labelA
    subtileA.tile_metadata rfl rfl rfl rfl rfl rfl

/-- Claim C7 fails on the code as stated universally: in `dsC7` the file
"Tile1_0_0.npz" is present (at position 1), but `find_subtile(1,0,0)` hits the
non-matching name "garbage.npz" first and crashes with `AttributeError`
(accessing `.group` on a failed match) instead of returning the positional
accessor's triple. -/
theorem c7_find_subtile_cex :
    find_subtile dsC7 1 0 0 = .error .attributeError ∧
      nth? dsC7.tiles 1 = some "Tile1_0_0.npz" ∧
      getitem dsC7 1 = .ok ([[[10]], [[20]]], [[[0]]], subtileB.tile_metadata) ∧
      find_subtile dsC7 1 0 0 ≠ getitem dsC7 1 :=
  ⟨rfl, rfl, rfl, by decide⟩

/-- Claim C7 (amended): if position p of the enumerated file list holds a name
that the pattern parses to exactly (tile_id, i, j) — as a file literally named
`Tile{tile_id}_{i}_{j}.npz` is — and every earlier name matches the pattern
but parses to a different triple, then `find_subtile(tile_id, i, j)` returns
exactly the positional accessor's result at p. -/
theorem c7_find_subtile_amended (ds : DSE) (tile_id i j p : Nat) (name : String)
    (hp : nth? ds.tiles p = some name)
    (hname : searchTile name = some (tile_id, i, j))
    (hbefore : ∀ m, m < p → ∀ nm, nth? ds.tiles m = some nm →
      ∃ g, searchTile nm = some g ∧ g ≠ (tile_id, i, j)) :
    find_subtile ds tile_id i j = getitem ds p := by
  have := findLoop_hits ds tile_id i j ds.tiles 0 p name hp hname hbefore
  simpa [find_subtile] using this

/-- Witness for the amended claim C7 at the dataset `dsB`. -/
theorem c7_find_subtile_witness : find_subtile dsB 1 0 0 = getitem dsB 0 :=
  c7_find_subtile_amended dsB 1 0 0 0 "Tile1_0_0.npz" rfl rfl
    (fun m hm _ _ => absurd hm (Nat.not_lt_zero m))

/-- Claim C8 fails on the code as stated universally: in `dsC8` no file matches
the requested triple (1,0,0), yet `find_subtile` raises `AttributeError` on
the non-matching name "garbage.npz" instead of the `ValueError` lookup error
naming the triple. -/
theorem c8_lookup_error_cex :
    find_subtile dsC8 1 0 0 = .error .attributeError ∧
      find_subtile dsC8 1 0 0
        ≠ .error (.valueError ("Could not find Tile" ++ toString 1 ++ "_" ++ toString 0 ++
            "_" ++ toString 0 ++ ".npz in the dataset")) :=
  ⟨rfl, by decide⟩

/-- Claim C8 (amended): if every enumerated file name matches the pattern and
none of them parses to the requested triple, then `find_subtile(tile_id,i,j)`
raises the lookup `ValueError` whose message names the requested triple:
"Could not find Tile{tile_id}_{i}_{j}.npz in the dataset". -/
theorem c8_lookup_error_amended (ds : DSE) (tile_id i j : Nat)
    (hall : ∀ nm ∈ ds.tiles, ∃ g, searchTile nm = some g ∧ g ≠ (tile_id, i, j)) :
    find_subtile ds tile_id i j
      = .error (.valueError ("Could not find Tile" ++ toString tile_id ++ "_" ++ toString i ++
          "_" ++ toString j ++ ".npz in the dataset")) :=
  findLoop_miss ds tile_id i j ds.tiles 0 hall

/-- Witness for the amended claim C8 at the dataset `dsW8`. -/
theorem c8_lookup_error_witness :
    find_subtile dsW8 1 0 0
      = .error (.valueError ("Could not find Tile" ++ toString 1 ++ "_" ++ toString 0 ++
          "_" ++ toString 0 ++ ".npz in the dataset")) :=
  c8_lookup_error_amended dsW8 1 0 0
    (by
      intro nm hnm
      have hnm2 : nm = "Tile2_0_0.npz" := by simpa [dsW8] using hnm
      subst hnm2
      exact ⟨(2, 0, 0), rfl, by decide⟩)

/-- Claim C9: time aggregation of a (time, band, h, w) array produces the
(time·band, h, w) array that collapses the two leading axes in row-major
order: the output slice at first-axis position t'·band + b' is the input
slice at (t', b'), so time varies slower than band along the new axis. -/
theorem c9_aggregate_time (img : Arr4) (b t' b' : Nat)
    (hb : ∀ r ∈ img, r.length = b) (ht' : t' < img.length) (hb' : b' < b) :
    (aggregate_time img).length = img.length * b ∧
    nth? (aggregate_time img) (t' * b + b') = (nth? img t').bind (fun r => nth? r b') := by
  constructor
  · rw [aggregate_time, List.length_flatten]
    exact sum_const_lengths b img hb
  · exact flatten_nth? b img t' b' hb hb' ht'

/-- Witness for claim C9 at the (2,2,1,1) array `imgW`. -/
theorem c9_aggregate_time_witness :
    (aggregate_time imgW).length = imgW.length * 2 ∧
    nth? (aggregate_time imgW) (1 * 2 + 1) = (nth? imgW 1).bind (fun r => nth? r 1) :=
  c9_aggregate_time imgW 2 1 1 (by decide) (by decide) (by decide)

/-- Claim C10: if some position k of the enumerated file list holds a name that
does not match the pattern, and every earlier name matches the pattern but
parses to a triple other than the requested one (so the scan reaches k before
any hit), then `find_subtile` fails with the generic `AttributeError` from
accessing the capture groups of a failed match — it does not skip the bad
name, even when a later file matches the request. -/
theorem c10_pattern_crash (ds : DSE) (tile_id i j k : Nat) (bad : String)
    (hk : nth? ds.tiles k = some bad)
    (hbad : searchTile bad = none)
    (hbefore : ∀ m, m < k → ∀ nm, nth? ds.tiles m = some nm →
      ∃ g, searchTile nm = some g ∧ g ≠ (tile_id, i, j)) :
    find_subtile ds tile_id i j = .error .attributeError :=
  findLoop_bad ds tile_id i j ds.tiles 0 k bad hk hbad hbefore

/-- Witness for claim C10 at the dataset `dsC10`: the bad name sits at position
0 and the file at position 1 parses to the requested triple (3,1,2), yet the
lookup crashes. -/
theorem c10_pattern_crash_witness :
    find_subtile dsC10 3 1 2 = .error .attributeError ∧
      searchTile "Tile3_1_2.npz" = some (3, 1, 2) :=
  ⟨c10_pattern_crash dsC10 3 1 2 0 "garbage.npz" rfl rfl
      (fun m hm _ _ => absurd hm (Nat.not_lt_zero m)),
    rfl⟩
